import Mathlib

/-!
Verification of the thoth repository's specification against a shallow
embedding of its source files.

The embedding covers:
* `thoth-client/src/lib.rs` — the `ThothClient` GraphQL client: its retry
  configuration, and the response handling of `get_work`, `get_works`,
  `get_work_count`, `get_work_last_updated` and `get_works_last_updated`;
* `thoth-app/src/models/work/mod.rs` — the `License` controlled-vocabulary
  mapping and the sixteen `DisplayWork` export-endpoint functions;
* `thoth-app/src/component/subjects_form.rs` — the subject list ordering in
  `view`, the `ChangeOrdinal` message handler and the delete handler;
* `thoth-app/src/component/languages_form.rs` — the language-codes fetch,
  create-language push and delete handlers;
* `thoth-app/src/component/series.rs` — the series fetch handler and view.
-/

namespace Thoth

/-! ## Client model (`thoth-client/src/lib.rs`) -/

/-- Timestamps (`thoth_api::model::Timestamp`) are opaque to the client code
under verification; only equality matters, so they are modelled as `Nat`. -/
abbrev Timestamp : Type := Nat

/-- UUIDs are opaque identifiers in the client code; modelled as `Nat`. -/
abbrev Uuid : Type := Nat

/-- Error type standing for `thoth_errors::ThothError` (the `thoth-errors`
crate is outside `src/`).  `entityNotFound` is `ThothError::EntityNotFound`,
used verbatim in `lib.rs`; `requestError` models the `From` conversion of a
`reqwest_middleware::Error` applied by the first `?` in each client method;
`malformedResponse` models the conversion of a `reqwest::Error` applied by the
`?` on `res.json()`. -/
inductive ThothError
  | entityNotFound
  | requestError
  | malformedResponse
  deriving DecidableEq, Repr

/-- `thoth_errors::ThothResult<T> = Result<T, ThothError>`. -/
abbrev ThothResult (α : Type) : Type := Except ThothError α

/-- Backoff curve of a retry policy.  The source always builds
`ExponentialBackoff`; the other constructors exist so that the statement
"the backoff is exponential" is informative. -/
inductive BackoffKind
  | exponential
  | fixedInterval
  deriving DecidableEq, Repr

/-- The retry-relevant configuration of a `ThothClient`
(`thoth-client/src/lib.rs`, lines 30-47): the GraphQL endpoint and the retry
middleware policy installed by the constructor. -/
structure ThothClient where
  graphql_endpoint : String
  retryMaxRetries : Nat
  retryBackoff : BackoffKind

/-- `const MAX_REQUEST_RETRIES: u32 = 5;` (`lib.rs` line 25). -/
def MAX_REQUEST_RETRIES : Nat := 5

/-- `ThothClient::new` (`lib.rs` lines 37-47): builds an `ExponentialBackoff`
policy with `build_with_max_retries(MAX_REQUEST_RETRIES)` and installs it as
`RetryTransientMiddleware` on the HTTP client. -/
def ThothClient.new (graphql_endpoint : String) : ThothClient :=
  { graphql_endpoint := graphql_endpoint
    retryMaxRetries := MAX_REQUEST_RETRIES
    retryBackoff := BackoffKind.exponential }

/-- Result of `res.json::<Response<T>>()` on a delivered HTTP response:
either the body fails to parse (`malformed`, surfaced by `?` as an error), or
it parses to a `graphql_client::Response` whose `data` field is an
`Option<T>`. -/
inductive ParsedBody (α : Type)
  | malformed
  | body (data : Option α)
  deriving DecidableEq, Repr

/-- Outcome of one HTTP attempt as seen by the retry middleware.  `transient`
is an outcome the middleware classifies as retryable (connection failure or
5xx); `final` is a delivered response, carrying what its body parses to. -/
inductive Attempt (α : Type)
  | transient
  | final (p : ParsedBody α)
  deriving DecidableEq, Repr

/-- Modelled from the spec: the internals of `reqwest_retry`'s
`RetryTransientMiddleware` (an external crate; only its configuration appears
in `src/`).  Per the spec's §4.2 retry contract, the middleware performs the
request, and on a transient failure retries it while retries remain, up to the
configured maximum number of retries; a delivered (non-transient) response is
returned at once.  `oracle i` is the outcome of attempt `i`; the result is the
number of attempts performed paired with `none` (transient failure surfaced
after retries were exhausted) or `some p` (the delivered response body). -/
def runRetriesFrom (oracle : Nat → Attempt α) : Nat → Nat → Nat × Option (ParsedBody α)
  | i, 0 =>
    match oracle i with
    | Attempt.final p => (i + 1, some p)
    | Attempt.transient => (i + 1, none)
  | i, fuel + 1 =>
    match oracle i with
    | Attempt.final p => (i + 1, some p)
    | Attempt.transient => runRetriesFrom oracle (i + 1) fuel

/-- Modelled from the spec: a full retried send, starting at attempt `0` with
`maxRetries` retries available (so at most `maxRetries + 1` attempts). -/
def sendWithRetry (maxRetries : Nat) (oracle : Nat → Attempt α) :
    Nat × Option (ParsedBody α) :=
  runRetriesFrom oracle 0 maxRetries

/-- The canonical metadata aggregate returned by the work query.  Its fields
are irrelevant to the client-level claims; an opaque identifier suffices. -/
structure Work where
  work_id : Uuid
  deriving DecidableEq, Repr

/-- Response handling of `ThothClient::get_work` (`lib.rs` lines 85-88):
`Some(data) => Ok(data.work)`, `None => Err(ThothError::EntityNotFound)`; a
body that fails to parse was already surfaced by the `?` on `res.json()`. -/
def getWorkProcess (p : ParsedBody Work) : ThothResult Work :=
  match p with
  | ParsedBody.malformed => Except.error ThothError.malformedResponse
  | ParsedBody.body none => Except.error ThothError.entityNotFound
  | ParsedBody.body (some w) => Except.ok w

/-- `ThothClient::get_work` (`lib.rs` lines 80-89) as a function of the
client's configured retry policy and the per-attempt outcomes: the single
`post_request` send runs under the retry middleware, then the body is parsed
and its `data` field matched.  Returns the result together with the number of
HTTP attempts performed. -/
def ThothClient.get_work (c : ThothClient) (oracle : Nat → Attempt Work) :
    ThothResult Work × Nat :=
  match sendWithRetry c.retryMaxRetries oracle with
  | (n, none) => (Except.error ThothError.requestError, n)
  | (n, some p) => (getWorkProcess p, n)

/-- Response handling of `ThothClient::get_works` (`lib.rs` lines 123-126):
`Some(data) => Ok(data.works.iter().map(...).collect())` (the map converts
between two identical generated query types, modelled as the identity),
`None => Err(ThothError::EntityNotFound)`. -/
def getWorksProcess (d : Option (List Work)) : ThothResult (List Work) :=
  match d with
  | some works => Except.ok works
  | none => Except.error ThothError.entityNotFound

/-- Response handling of `ThothClient::get_work_count` (`lib.rs` lines
154-157). -/
def getWorkCountProcess (d : Option Int) : ThothResult Int :=
  match d with
  | some workCount => Except.ok workCount
  | none => Except.error ThothError.entityNotFound

/-- A row of the works-last-updated query: only the
`updated_at_with_relations` field is selected. -/
structure WorkUpdatedRow where
  updated_at_with_relations : Timestamp
  deriving DecidableEq

/-- Response handling of `ThothClient::get_work_last_updated` (`lib.rs` lines
186-189): `Some(data) => Ok(data.work.updated_at_with_relations)`,
`None => Err(ThothError::EntityNotFound)`. -/
def getWorkLastUpdatedProcess (d : Option WorkUpdatedRow) : ThothResult Timestamp :=
  match d with
  | some work => Except.ok work.updated_at_with_relations
  | none => Except.error ThothError.entityNotFound

/-- Response handling of `ThothClient::get_works_last_updated` (`lib.rs`
lines 221-230): on `Some(data)`, `data.works.first()` is inspected — the
first work's `updated_at_with_relations` is returned if the list is nonempty,
otherwise `Err(ThothError::EntityNotFound)`; `None` is also
`Err(ThothError::EntityNotFound)`. -/
def getWorksLastUpdatedProcess (d : Option (List WorkUpdatedRow)) : ThothResult Timestamp :=
  match d with
  | some works =>
    match works with
    | work :: _ => Except.ok work.updated_at_with_relations
    | [] => Except.error ThothError.entityNotFound
  | none => Except.error ThothError.entityNotFound

/-- The public query methods of `ThothClient` (`lib.rs`): `get_work`,
`get_works`, `get_work_count`, `get_work_last_updated`,
`get_works_last_updated`. -/
inductive ClientOp
  | getWorkOp
  | getWorksOp
  | getWorkCountOp
  | getWorkLastUpdatedOp
  | getWorksLastUpdatedOp
  deriving DecidableEq, Repr

/-- The read-only query shapes distinguishable at the client interface. -/
inductive QueryShape
  | fetchOneByIdentity
  | fetchPageByPublishers
  | fetchLastUpdated
  | fetchCount
  deriving DecidableEq, Repr

/-- All public query methods of `ThothClient` in declaration order. -/
def clientOps : List ClientOp :=
  [ClientOp.getWorkOp, ClientOp.getWorksOp, ClientOp.getWorkCountOp,
   ClientOp.getWorkLastUpdatedOp, ClientOp.getWorksLastUpdatedOp]

/-- The query shape of each public method, read off its signature in
`lib.rs`: `get_work(work_id, parameters) -> ThothResult<Work>` fetches one
aggregate by identity; `get_works(publishers, limit, offset, parameters) ->
ThothResult<Vec<Work>>` fetches a page filtered by publisher ownership;
`get_work_count(publishers) -> ThothResult<i64>` is a count query;
`get_work_last_updated(work_id)` and `get_works_last_updated(publishers)`
return a `ThothResult<Timestamp>`. -/
def opShape : ClientOp → QueryShape
  | ClientOp.getWorkOp => QueryShape.fetchOneByIdentity
  | ClientOp.getWorksOp => QueryShape.fetchPageByPublishers
  | ClientOp.getWorkCountOp => QueryShape.fetchCount
  | ClientOp.getWorkLastUpdatedOp => QueryShape.fetchLastUpdated
  | ClientOp.getWorksLastUpdatedOp => QueryShape.fetchLastUpdated

/-! ### Retry-runner lemmas -/

/-- The retried send performs at most `fuel + 1` attempts beyond `i`. -/
theorem runRetriesFrom_le (oracle : Nat → Attempt α) :
    ∀ fuel i, (runRetriesFrom oracle i fuel).1 ≤ i + fuel + 1 := by
  intro fuel
  induction fuel with
  | zero =>
    intro i
    cases h : oracle i <;> simp [runRetriesFrom, h]
  | succ fuel ih =>
    intro i
    cases h : oracle i with
    | final p => simp [runRetriesFrom, h]
    | transient =>
      have : runRetriesFrom oracle i (fuel + 1) = runRetriesFrom oracle (i + 1) fuel := by
        simp [runRetriesFrom, h]
      rw [this]
      calc (runRetriesFrom oracle (i + 1) fuel).1 ≤ (i + 1) + fuel + 1 := ih (i + 1)
        _ ≤ i + (fuel + 1) + 1 := by omega

/-- If the first `k` attempts from `i` are transient and attempt `i + k` is a
delivered response, the retried send with at least `k` retries of fuel stops
right there: `i + k + 1` attempts, returning that response's body. -/
theorem runRetriesFrom_stops (oracle : Nat → Attempt α) :
    ∀ k fuel i, k ≤ fuel → (∀ j, j < k → oracle (i + j) = Attempt.transient) →
      ∀ p, oracle (i + k) = Attempt.final p →
      runRetriesFrom oracle i fuel = (i + k + 1, some p) := by
  intro k
  induction k with
  | zero =>
    intro fuel i _ _ p hp
    simp only [Nat.add_zero] at hp
    cases fuel <;> simp [runRetriesFrom, hp]
  | succ k ih =>
    intro fuel i hk htrans p hp
    have h0 : oracle i = Attempt.transient := by
      have := htrans 0 (Nat.succ_pos k)
      simpa using this
    cases fuel with
    | zero => omega
    | succ fuel =>
      have hstep : runRetriesFrom oracle i (fuel + 1) = runRetriesFrom oracle (i + 1) fuel := by
        simp [runRetriesFrom, h0]
      have htrans' : ∀ j, j < k → oracle ((i + 1) + j) = Attempt.transient := by
        intro j hj
        have := htrans (j + 1) (by omega)
        have harith : i + (j + 1) = (i + 1) + j := by omega
        rw [harith] at this
        exact this
      have hp' : oracle ((i + 1) + k) = Attempt.final p := by
        have harith : (i + 1) + k = i + (k + 1) := by omega
        rw [harith]
        exact hp
      have := ih fuel (i + 1) (by omega) htrans' p hp'
      rw [hstep, this]
      congr 1
      omega

/-- Every attempt before the last one made by the retried send was
transient: retries happen only on transient outcomes. -/
theorem runRetriesFrom_transient_before (oracle : Nat → Attempt α) :
    ∀ fuel i j, i ≤ j → j + 1 < (runRetriesFrom oracle i fuel).1 →
      oracle j = Attempt.transient := by
  intro fuel
  induction fuel with
  | zero =>
    intro i j hij hj
    cases h : oracle i <;> simp [runRetriesFrom, h] at hj <;> omega
  | succ fuel ih =>
    intro i j hij hj
    cases h : oracle i with
    | final p =>
      simp [runRetriesFrom, h] at hj
      omega
    | transient =>
      have hstep : runRetriesFrom oracle i (fuel + 1) = runRetriesFrom oracle (i + 1) fuel := by
        simp [runRetriesFrom, h]
      rw [hstep] at hj
      by_cases hji : j = i
      · rw [hji]; exact h
      · exact ih (i + 1) j (by omega) hj


/-! ## License controlled-vocabulary mapping
(`thoth-app/src/models/work/mod.rs`, lines 543-614) -/

/-- The `License` enum (`work/mod.rs` lines 19-29). -/
inductive License
  | By
  | BySa
  | ByNd
  | ByNc
  | ByNcSa
  | ByNcNd
  | Zero
  | Undefined
  deriving DecidableEq, Repr

/-- `std::string::ParseError`, the error type of `impl FromStr for License`:
it is an alias of `core::convert::Infallible` and has no values. -/
inductive ParseError
  deriving DecidableEq

/-- The first or-pattern group of `License::from_str` (lines 548-557): the
Creative Commons BY license URLs mapped to `License::By`. -/
def byUrls : List String :=
  ["http://creativecommons.org/licenses/by/1.0/",
   "http://creativecommons.org/licenses/by/2.0/",
   "http://creativecommons.org/licenses/by/2.5/",
   "http://creativecommons.org/licenses/by/3.0/",
   "http://creativecommons.org/licenses/by/4.0/",
   "https://creativecommons.org/licenses/by/1.0/",
   "https://creativecommons.org/licenses/by/2.0/",
   "https://creativecommons.org/licenses/by/2.5/",
   "https://creativecommons.org/licenses/by/3.0/",
   "https://creativecommons.org/licenses/by/4.0/"]

/-- Or-pattern group mapped to `License::BySa` (lines 558-567). -/
def bySaUrls : List String :=
  ["http://creativecommons.org/licenses/by-sa/1.0/",
   "http://creativecommons.org/licenses/by-sa/2.0/",
   "http://creativecommons.org/licenses/by-sa/2.5/",
   "http://creativecommons.org/licenses/by-sa/3.0/",
   "http://creativecommons.org/licenses/by-sa/4.0/",
   "https://creativecommons.org/licenses/by-sa/1.0/",
   "https://creativecommons.org/licenses/by-sa/2.0/",
   "https://creativecommons.org/licenses/by-sa/2.5/",
   "https://creativecommons.org/licenses/by-sa/3.0/",
   "https://creativecommons.org/licenses/by-sa/4.0/"]

/-- Or-pattern group mapped to `License::ByNd` (lines 568-577). -/
def byNdUrls : List String :=
  ["http://creativecommons.org/licenses/by-nd/1.0/",
   "http://creativecommons.org/licenses/by-nd/2.0/",
   "http://creativecommons.org/licenses/by-nd/2.5/",
   "http://creativecommons.org/licenses/by-nd/3.0/",
   "http://creativecommons.org/licenses/by-nd/4.0/",
   "https://creativecommons.org/licenses/by-nd/1.0/",
   "https://creativecommons.org/licenses/by-nd/2.0/",
   "https://creativecommons.org/licenses/by-nd/2.5/",
   "https://creativecommons.org/licenses/by-nd/3.0/",
   "https://creativecommons.org/licenses/by-nd/4.0/"]

/-- Or-pattern group mapped to `License::ByNc` (lines 578-587). -/
def byNcUrls : List String :=
  ["http://creativecommons.org/licenses/by-nc/1.0/",
   "http://creativecommons.org/licenses/by-nc/2.0/",
   "http://creativecommons.org/licenses/by-nc/2.5/",
   "http://creativecommons.org/licenses/by-nc/3.0/",
   "http://creativecommons.org/licenses/by-nc/4.0/",
   "https://creativecommons.org/licenses/by-nc/1.0/",
   "https://creativecommons.org/licenses/by-nc/2.0/",
   "https://creativecommons.org/licenses/by-nc/2.5/",
   "https://creativecommons.org/licenses/by-nc/3.0/",
   "https://creativecommons.org/licenses/by-nc/4.0/"]

/-- Or-pattern group mapped to `License::ByNcSa` (lines 588-597). -/
def byNcSaUrls : List String :=
  ["http://creativecommons.org/licenses/by-nc-sa/1.0/",
   "http://creativecommons.org/licenses/by-nc-sa/2.0/",
   "http://creativecommons.org/licenses/by-nc-sa/2.5/",
   "http://creativecommons.org/licenses/by-nc-sa/3.0/",
   "http://creativecommons.org/licenses/by-nc-sa/4.0/",
   "https://creativecommons.org/licenses/by-nc-sa/1.0/",
   "https://creativecommons.org/licenses/by-nc-sa/2.0/",
   "https://creativecommons.org/licenses/by-nc-sa/2.5/",
   "https://creativecommons.org/licenses/by-nc-sa/3.0/",
   "https://creativecommons.org/licenses/by-nc-sa/4.0/"]

/-- Or-pattern group mapped to `License::ByNcNd` (lines 598-607). -/
def byNcNdUrls : List String :=
  ["http://creativecommons.org/licenses/by-nc-nd/1.0/",
   "http://creativecommons.org/licenses/by-nc-nd/2.0/",
   "http://creativecommons.org/licenses/by-nc-nd/2.5/",
   "http://creativecommons.org/licenses/by-nc-nd/3.0/",
   "http://creativecommons.org/licenses/by-nc-nd/4.0/",
   "https://creativecommons.org/licenses/by-nc-nd/1.0/",
   "https://creativecommons.org/licenses/by-nc-nd/2.0/",
   "https://creativecommons.org/licenses/by-nc-nd/2.5/",
   "https://creativecommons.org/licenses/by-nc-nd/3.0/",
   "https://creativecommons.org/licenses/by-nc-nd/4.0/"]

/-- Or-pattern group mapped to `License::Zero` (lines 608-609). -/
def zeroUrls : List String :=
  ["http://creativecommons.org/publicdomain/zero/1.0/",
   "https://creativecommons.org/publicdomain/zero/1.0/"]

/-- All Creative Commons license URLs enumerated in `License::from_str`. -/
def ccLicenseUrls : List String :=
  byUrls ++ bySaUrls ++ byNdUrls ++ byNcUrls ++ byNcSaUrls ++ byNcNdUrls ++ zeroUrls

/-- `impl FromStr for License` (`work/mod.rs` lines 543-614): a `match` whose
or-pattern groups are the URL lists above, with catch-all arm
`_other => License::Undefined`, followed by `Ok(license)` — the function
always succeeds. -/
def License.from_str (input : String) : Except ParseError License :=
  let license :=
    if input ∈ byUrls then License.By
    else if input ∈ bySaUrls then License.BySa
    else if input ∈ byNdUrls then License.ByNd
    else if input ∈ byNcUrls then License.ByNc
    else if input ∈ byNcSaUrls then License.ByNcSa
    else if input ∈ byNcNdUrls then License.ByNcNd
    else if input ∈ zeroUrls then License.Zero
    else License.Undefined
  Except.ok license

/-! ## Export endpoint URLs
(`thoth-app/src/models/work/mod.rs`, lines 138-249, `DisplayWork for
WorkWithRelations`).  `THOTH_EXPORT_API` is a deployment-time constant
defined outside `src/`; each endpoint function takes it as `api`.  The
`work_id` argument is the UUID's display form. -/

/-- `marc21_thoth_endpoint` (lines 139-144). -/
def marc21_thoth_endpoint (api work_id : String) : String :=
  api ++ "/specifications/marc21record::thoth/work/" ++ work_id

/-- `marc21markup_thoth_endpoint` (lines 146-151). -/
def marc21markup_thoth_endpoint (api work_id : String) : String :=
  api ++ "/specifications/marc21markup::thoth/work/" ++ work_id

/-- `marc21xml_thoth_endpoint` (lines 153-158). -/
def marc21xml_thoth_endpoint (api work_id : String) : String :=
  api ++ "/specifications/marc21xml::thoth/work/" ++ work_id

/-- `onix_thoth_endpoint` (lines 160-165). -/
def onix_thoth_endpoint (api work_id : String) : String :=
  api ++ "/specifications/onix_3.0::thoth/work/" ++ work_id

/-- `onix_projectmuse_endpoint` (lines 167-172). -/
def onix_projectmuse_endpoint (api work_id : String) : String :=
  api ++ "/specifications/onix_3.0::project_muse/work/" ++ work_id

/-- `onix_oapen_endpoint` (lines 174-179). -/
def onix_oapen_endpoint (api work_id : String) : String :=
  api ++ "/specifications/onix_3.0::oapen/work/" ++ work_id

/-- `onix_jstor_endpoint` (lines 181-186). -/
def onix_jstor_endpoint (api work_id : String) : String :=
  api ++ "/specifications/onix_3.0::jstor/work/" ++ work_id

/-- `onix_google_books_endpoint` (lines 188-193). -/
def onix_google_books_endpoint (api work_id : String) : String :=
  api ++ "/specifications/onix_3.0::google_books/work/" ++ work_id

/-- `onix_overdrive_endpoint` (lines 195-200). -/
def onix_overdrive_endpoint (api work_id : String) : String :=
  api ++ "/specifications/onix_3.0::overdrive/work/" ++ work_id

/-- `onix_ebsco_host_endpoint` (lines 202-207). -/
def onix_ebsco_host_endpoint (api work_id : String) : String :=
  api ++ "/specifications/onix_2.1::ebsco_host/work/" ++ work_id

/-- `onix_proquest_ebrary_endpoint` (lines 209-214). -/
def onix_proquest_ebrary_endpoint (api work_id : String) : String :=
  api ++ "/specifications/onix_2.1::proquest_ebrary/work/" ++ work_id

/-- `csv_endpoint` (lines 216-221). -/
def csv_endpoint (api work_id : String) : String :=
  api ++ "/specifications/csv::thoth/work/" ++ work_id

/-- `json_endpoint` (lines 223-228). -/
def json_endpoint (api work_id : String) : String :=
  api ++ "/specifications/json::thoth/work/" ++ work_id

/-- `kbart_endpoint` (lines 230-235). -/
def kbart_endpoint (api work_id : String) : String :=
  api ++ "/specifications/kbart::oclc/work/" ++ work_id

/-- `bibtex_endpoint` (lines 237-242). -/
def bibtex_endpoint (api work_id : String) : String :=
  api ++ "/specifications/bibtex::thoth/work/" ++ work_id

/-- `doideposit_endpoint` (lines 244-249). -/
def doideposit_endpoint (api work_id : String) : String :=
  api ++ "/specifications/doideposit::crossref/work/" ++ work_id

/-- The sixteen `family::dialect` specification slugs, in the order of the
sixteen endpoint functions above. -/
def specSlugs : List String :=
  ["marc21record::thoth", "marc21markup::thoth", "marc21xml::thoth",
   "onix_3.0::thoth", "onix_3.0::project_muse", "onix_3.0::oapen",
   "onix_3.0::jstor", "onix_3.0::google_books", "onix_3.0::overdrive",
   "onix_2.1::ebsco_host", "onix_2.1::proquest_ebrary", "csv::thoth",
   "json::thoth", "kbart::oclc", "bibtex::thoth", "doideposit::crossref"]

/-- The common URL shape `{export-api}/specifications/{slug}/work/{work_id}`
shared by all sixteen endpoint functions. -/
def specEndpoint (api slug work_id : String) : String :=
  api ++ "/specifications/" ++ slug ++ "/work/" ++ work_id

/-- The outputs of the sixteen `DisplayWork` endpoint functions, in
declaration order, for a fixed export API root and work id. -/
def displayWorkEndpoints (api work_id : String) : List String :=
  [marc21_thoth_endpoint api work_id,
   marc21markup_thoth_endpoint api work_id,
   marc21xml_thoth_endpoint api work_id,
   onix_thoth_endpoint api work_id,
   onix_projectmuse_endpoint api work_id,
   onix_oapen_endpoint api work_id,
   onix_jstor_endpoint api work_id,
   onix_google_books_endpoint api work_id,
   onix_overdrive_endpoint api work_id,
   onix_ebsco_host_endpoint api work_id,
   onix_proquest_ebrary_endpoint api work_id,
   csv_endpoint api work_id,
   json_endpoint api work_id,
   kbart_endpoint api work_id,
   bibtex_endpoint api work_id,
   doideposit_endpoint api work_id]

/-- Any concatenation of the endpoint shape with the slug split off equals
the corresponding single-literal concatenation. -/
theorem endpoint_form (api w L s : String)
    (h : "/specifications/" ++ s ++ "/work/" = L) :
    api ++ L ++ w = specEndpoint api s w := by
  subst h
  simp [specEndpoint, String.append_assoc]

/-- For a fixed API root and work id, the slug determines the endpoint URL
injectively: the shared prefix and suffix cancel. -/
theorem specEndpoint_slug_injective (api w : String) :
    Function.Injective (fun s => specEndpoint api s w) := by
  intro s₁ s₂ h
  simp only [specEndpoint] at h
  have hd := congrArg String.data h
  simp only [String.data_append, List.append_assoc] at hd
  have h1 := List.append_cancel_left hd
  have h2 := List.append_cancel_left h1
  have h3 := List.append_cancel_right h2
  exact String.ext h3

/-! ## Subjects form (`thoth-app/src/component/subjects_form.rs`) -/

/-- `thoth_api::model::subject::Subject` as used by the subjects form:
identifier, type, code and ordinal (`work_id` and timestamps play no role in
the claims).  `SubjectType` lives in the `thoth-api` crate, outside `src/`;
modelled from the spec: Subjects carry a type drawn from a closed, totally
ordered enum — the derived Rust `PartialOrd` on a fieldless enum orders
variants by declaration index, so the type is modelled as its `Nat` rank.
The ordinal is a Rust `i32`, modelled as `Int`. -/
structure Subject where
  subject_id : Uuid
  subject_type : Nat
  subject_code : String
  subject_ordinal : Int
  deriving DecidableEq, Repr

/-- `Subject::default()`: zero and empty field values. -/
def Subject.default : Subject :=
  { subject_id := 0, subject_type := 0, subject_code := "", subject_ordinal := 0 }

/-- The comparator passed to `subjects.sort_by` in `SubjectsFormComponent::view`
(`subjects_form.rs` lines 248-254), as the boolean "less or equal" it induces:
`cmp(a, b) ≠ Greater` where `cmp` compares `subject_ordinal` when the
`subject_type`s are equal and `subject_type` otherwise. -/
def subjectLe (a b : Subject) : Bool :=
  if a.subject_type = b.subject_type then decide (a.subject_ordinal ≤ b.subject_ordinal)
  else decide (a.subject_type < b.subject_type)

/-- Insertion of `a` into `l` before the first element not below `a`.
`orderedInsertLe le a l` keeps `a` after the elements of `l` that compare
`le` to it when they tie, which is what a stable sort does with elements
already in place. -/
def orderedInsertLe (le : α → α → Bool) (a : α) : List α → List α
  | [] => [a]
  | b :: l => if le a b then a :: b :: l else b :: orderedInsertLe le a l

/-- Stable sort by a boolean comparator.  Rust's `slice::sort_by` is a stable
sort: its output is the unique permutation of the input that is sorted for the
comparator and keeps comparator-equal elements in input order; insertion sort
computes exactly that permutation, so it is a faithful model. -/
def stableSortLe (le : α → α → Bool) : List α → List α
  | [] => []
  | a :: l => orderedInsertLe le a (stableSortLe le l)

/-- The ordering in which `SubjectsFormComponent::view` (`subjects_form.rs`
lines 238-254) renders the subject rows: the props list
(`unwrap_or_default`) sorted with the comparator above. -/
def viewSubjectOrder (subjects : Option (List Subject)) : List Subject :=
  stableSortLe subjectLe (subjects.getD [])

/-- The sort key the comparator compares by: type rank, then ordinal. -/
def subjectKey (s : Subject) : Nat × Int :=
  (s.subject_type, s.subject_ordinal)

/-- ASCII digit value, `none` on a non-digit. -/
def digitVal (c : Char) : Option Nat :=
  if '0' ≤ c ∧ c ≤ '9' then some (c.toNat - '0'.toNat) else none

/-- Value of a digit string in base 10; `none` if any character is not an
ASCII digit. -/
def digitsVal (cs : List Char) : Option Nat :=
  cs.foldl (fun acc c => acc.bind (fun n => (digitVal c).map (fun d => 10 * n + d))) (some 0)

/-- Rust `str::parse::<i32>` (`i32::from_str`): an optional leading `+` or
`-` sign followed by one or more ASCII digits; an empty string, an empty
digit string, any other character, or a value outside `[-2^31, 2^31 - 1]`
is an error (`none`). -/
def parseI32 (s : String) : Option Int :=
  match s.data with
  | [] => none
  | c :: rest =>
    let signDigits : Int × List Char :=
      if c = '-' then (-1, rest) else if c = '+' then (1, rest) else (1, c :: rest)
    if signDigits.2.isEmpty then none
    else
      match digitsVal signDigits.2 with
      | none => none
      | some n =>
        let v : Int := signDigits.1 * n
        if -(2 ^ 31) ≤ v ∧ v ≤ 2 ^ 31 - 1 then some v else none

/-- `Msg::ChangeOrdinal` handler (`subjects_form.rs` lines 230-234):
`let ordinal = ordinal.parse::<i32>().unwrap_or(0);
self.new_subject.subject_ordinal.neq_assign(ordinal)`.  `neq_assign` writes
the value only when it differs, but the resulting field value is the parsed
value (or `0`) either way. -/
def changeOrdinal (ordinal : String) (new_subject : Subject) : Subject :=
  { new_subject with subject_ordinal := (parseI32 ordinal).getD 0 }

/-- Success branch of `Msg::SetSubjectDeleteState` (`subjects_form.rs` lines
182-194): the list emitted to the `update_subjects` callback keeps exactly
the props entries whose `subject_id` differs from the deleted subject's id. -/
def subjectDeleteEmit (props_subjects : Option (List Subject)) (deleted_id : Uuid) :
    List Subject :=
  (props_subjects.getD []).filter (fun s => s.subject_id != deleted_id)

/-! ## Languages form (`thoth-app/src/component/languages_form.rs`) -/

/-- `thoth_api::model::language::LanguageCode` and `LanguageRelation` are
closed enums from the `thoth-api` crate, outside `src/`; modelled as `Nat`
ranks. -/
abbrev LanguageCode : Type := Nat

/-- See `LanguageCode`. -/
abbrev LanguageRelation : Type := Nat

/-- `thoth_api::model::language::Language` as used by the languages form. -/
structure Language where
  language_id : Uuid
  language_code : LanguageCode
  language_relation : LanguageRelation
  main_language : Bool
  deriving DecidableEq, Repr

/-- The enum-values payload of the language-codes query
(`language_codes.enum_values`); only its length and contents as a list
matter. -/
abbrev LanguageCodeValue : Type := LanguageCode

/-- `yewtil::fetch::FetchState` as matched by the handlers: the `Failed`
variant's error is kept as the string the component turns it into via
`ThothError::from(err).to_string()`. -/
inductive FetchState (α : Type)
  | notFetching
  | fetching
  | fetched (body : α)
  | failed (err : String)
  deriving DecidableEq, Repr

/-- Notification severity (`NotificationStatus` in the notification bus). -/
inductive NotificationStatus
  | success
  | danger
  deriving DecidableEq, Repr

/-- A message sent on the notification bus
(`Request::NotificationBusMsg((message, status))`). -/
structure Notification where
  message : String
  status : NotificationStatus
  deriving DecidableEq, Repr

/-- `Msg::SetLanguageCodesFetchState` handler (`languages_form.rs` lines
120-128): `data.language_codes` becomes the fetched enum values and `vec![]`
in every other state — the `Failed(_, _err)` arm included — and no branch
sends a notification.  Result: the new `language_codes` data paired with the
notifications sent. -/
def setLanguageCodesFetchState (st : FetchState (List LanguageCodeValue)) :
    List LanguageCodeValue × List Notification :=
  match st with
  | FetchState.notFetching => ([], [])
  | FetchState.fetching => ([], [])
  | FetchState.fetched body => (body, [])
  | FetchState.failed _ => ([], [])

/-- `Msg::SetLanguagePushState` handler (`languages_form.rs` lines 159-192):
on `Fetched` with `Some(l)` the props list plus the new language is emitted to
`update_languages`; on `Fetched` with `None` a "Failed to save" danger
notification is sent; on `Failed(_, err)` a danger notification with the
error's display string is sent.  Result: the emitted list (if any) paired
with the notifications sent. -/
def setLanguagePushState (props_languages : Option (List Language))
    (st : FetchState (Option Language)) :
    Option (List Language) × List Notification :=
  match st with
  | FetchState.notFetching => (none, [])
  | FetchState.fetching => (none, [])
  | FetchState.fetched (some l) => (some ((props_languages.getD []) ++ [l]), [])
  | FetchState.fetched none =>
    (none, [{ message := "Failed to save", status := NotificationStatus.danger }])
  | FetchState.failed err =>
    (none, [{ message := err, status := NotificationStatus.danger }])

/-- Success branch of `Msg::SetLanguageDeleteState` (`languages_form.rs`
lines 216-227): the list emitted to `update_languages` keeps exactly the
props entries whose `language_id` differs from the deleted language's id. -/
def languageDeleteEmit (props_languages : Option (List Language)) (deleted_id : Uuid) :
    List Language :=
  (props_languages.getD []).filter (fun l => l.language_id != deleted_id)

/-! ## Series component (`thoth-app/src/component/series.rs`) -/

/-- What `SeriesComponent::view` (`series.rs` lines 359-451) renders,
keyed on the series fetch state. -/
inductive SeriesRendered
  | loader
  | editForm
  | errorText (msg : String)
  deriving DecidableEq, Repr

/-- `SeriesComponent::view`: a loader while the fetch has not completed, the
edit form on success, and the error's display string
(`ThothError::from(err).to_string()`) rendered as text when the series fetch
failed (`series.rs` lines 447-449).  The fetched body is irrelevant here. -/
def seriesView (st : FetchState Unit) : SeriesRendered :=
  match st with
  | FetchState.notFetching => SeriesRendered.loader
  | FetchState.fetching => SeriesRendered.loader
  | FetchState.fetched _ => SeriesRendered.editForm
  | FetchState.failed err => SeriesRendered.errorText err

/-! ## Stable-sort lemmas -/

/-- Ordered insertion permutes: inserting `a` yields a permutation of
`a :: l`. -/
theorem orderedInsertLe_perm (le : α → α → Bool) (a : α) :
    ∀ l : List α, (orderedInsertLe le a l).Perm (a :: l) := by
  intro l
  induction l with
  | nil => simp [orderedInsertLe]
  | cons b t ih =>
    cases hab : le a b with
    | true => simp [orderedInsertLe, hab]
    | false =>
      simp only [orderedInsertLe, hab, Bool.false_eq_true, if_false]
      exact (ih.cons b).trans (List.Perm.swap a b t)

/-- The stable sort permutes its input. -/
theorem stableSortLe_perm (le : α → α → Bool) :
    ∀ l : List α, (stableSortLe le l).Perm l := by
  intro l
  induction l with
  | nil => simp [stableSortLe]
  | cons a t ih =>
    exact (orderedInsertLe_perm le a (stableSortLe le t)).trans (ih.cons a)

/-- Ordered insertion preserves sortedness for a transitive, total boolean
comparator. -/
theorem orderedInsertLe_pairwise (le : α → α → Bool)
    (htrans : ∀ a b c, le a b = true → le b c = true → le a c = true)
    (htotal : ∀ a b, le a b = true ∨ le b a = true) (a : α) :
    ∀ l : List α, l.Pairwise (fun x y => le x y = true) →
      (orderedInsertLe le a l).Pairwise (fun x y => le x y = true) := by
  intro l
  induction l with
  | nil => intro _; simp [orderedInsertLe]
  | cons b t ih =>
    intro hp
    rcases List.pairwise_cons.mp hp with ⟨hb, ht⟩
    cases hab : le a b with
    | true =>
      simp only [orderedInsertLe, hab, if_true]
      refine List.pairwise_cons.mpr ⟨?_, hp⟩
      intro y hy
      rcases List.mem_cons.mp hy with rfl | hyt
      · exact hab
      · exact htrans a b y hab (hb y hyt)
    | false =>
      simp only [orderedInsertLe, hab, Bool.false_eq_true, if_false]
      refine List.pairwise_cons.mpr ⟨?_, ih ht⟩
      intro y hy
      have hmem := (orderedInsertLe_perm le a t).mem_iff.mp hy
      rcases List.mem_cons.mp hmem with rfl | hyt
      · rcases htotal y b with h | h
        · rw [hab] at h; exact absurd h (by simp)
        · exact h
      · exact hb y hyt

/-- The stable sort sorts, for a transitive, total boolean comparator. -/
theorem stableSortLe_pairwise (le : α → α → Bool)
    (htrans : ∀ a b c, le a b = true → le b c = true → le a c = true)
    (htotal : ∀ a b, le a b = true ∨ le b a = true) :
    ∀ l : List α, (stableSortLe le l).Pairwise (fun x y => le x y = true) := by
  intro l
  induction l with
  | nil => simp [stableSortLe]
  | cons a t ih =>
    exact orderedInsertLe_pairwise le htrans htotal a (stableSortLe le t) ih

/-- Two sorted lists that are permutations of each other are equal whenever
the sort keys are pairwise distinct, the comparator is total, and mutual
comparability forces equal keys. -/
theorem sorted_perm_eq_of_nodup_keys {β : Type} [DecidableEq β]
    (le : α → α → Bool) (key : α → β)
    (hanti : ∀ a b, le a b = true → le b a = true → key a = key b) :
    ∀ l₁ l₂ : List α, l₁.Perm l₂ → l₁.Pairwise (fun x y => le x y = true) →
      l₂.Pairwise (fun x y => le x y = true) → (l₁.map key).Nodup → l₁ = l₂ := by
  intro l₁
  induction l₁ with
  | nil =>
    intro l₂ hp _ _ _
    exact (hp.symm.eq_nil).symm
  | cons a t ih =>
    intro l₂ hp h₁ h₂ hnd
    cases l₂ with
    | nil => exact absurd hp.eq_nil (List.cons_ne_nil a t)
    | cons b t₂ =>
      rcases List.pairwise_cons.mp h₁ with ⟨ha, ht₁⟩
      rcases List.pairwise_cons.mp h₂ with ⟨hbb, ht₂⟩
      by_cases hab : a = b
      · subst hab
        have hnd' : (t.map key).Nodup := by
          simp only [List.map_cons, List.nodup_cons] at hnd
          exact hnd.2
        rw [ih t₂ hp.cons_inv ht₁ ht₂ hnd']
      · exfalso
        have hbmem : b ∈ a :: t := hp.mem_iff.mpr (List.mem_cons_self b t₂)
        have hbt : b ∈ t := by
          rcases List.mem_cons.mp hbmem with h | h
          · exact absurd h.symm hab
          · exact h
        have hamem : a ∈ b :: t₂ := hp.mem_iff.mp (List.mem_cons_self a t)
        have hat₂ : a ∈ t₂ := by
          rcases List.mem_cons.mp hamem with h | h
          · exact absurd h hab
          · exact h
        have hk : key a = key b := hanti a b (ha b hbt) (hbb a hat₂)
        have hkmem : key b ∈ t.map key := List.mem_map_of_mem key hbt
        rw [← hk] at hkmem
        simp only [List.map_cons, List.nodup_cons] at hnd
        exact hnd.1 hkmem

/-- The subjects comparator is transitive. -/
theorem subjectLe_trans :
    ∀ a b c : Subject, subjectLe a b = true → subjectLe b c = true →
      subjectLe a c = true := by
  intro a b c hab hbc
  simp only [subjectLe] at hab hbc ⊢
  by_cases h1 : a.subject_type = b.subject_type <;>
    by_cases h2 : b.subject_type = c.subject_type
  · rw [if_pos h1] at hab
    rw [if_pos h2] at hbc
    rw [if_pos (h1.trans h2)]
    simp only [decide_eq_true_eq] at hab hbc ⊢
    omega
  · rw [if_pos h1] at hab
    rw [if_neg h2] at hbc
    have h3 : ¬ a.subject_type = c.subject_type := by rw [h1]; exact h2
    rw [if_neg h3]
    simp only [decide_eq_true_eq] at hab hbc ⊢
    omega
  · rw [if_neg h1] at hab
    rw [if_pos h2] at hbc
    have h3 : ¬ a.subject_type = c.subject_type := by rw [← h2]; exact h1
    rw [if_neg h3]
    simp only [decide_eq_true_eq] at hab hbc ⊢
    omega
  · rw [if_neg h1] at hab
    rw [if_neg h2] at hbc
    simp only [decide_eq_true_eq] at hab hbc
    have h3 : ¬ a.subject_type = c.subject_type := by omega
    rw [if_neg h3]
    simp only [decide_eq_true_eq]
    omega

/-- The subjects comparator is total. -/
theorem subjectLe_total :
    ∀ a b : Subject, subjectLe a b = true ∨ subjectLe b a = true := by
  intro a b
  simp only [subjectLe]
  by_cases h : a.subject_type = b.subject_type
  · rw [if_pos h, if_pos h.symm]
    simp only [decide_eq_true_eq]
    omega
  · have h' : ¬ b.subject_type = a.subject_type := fun e => h e.symm
    rw [if_neg h, if_neg h']
    simp only [decide_eq_true_eq]
    omega

/-- Mutual comparability under the subjects comparator forces equal sort
keys. -/
theorem subjectLe_anti_key :
    ∀ a b : Subject, subjectLe a b = true → subjectLe b a = true →
      subjectKey a = subjectKey b := by
  intro a b hab hba
  simp only [subjectLe] at hab hba
  simp only [subjectKey, Prod.mk.injEq]
  by_cases h : a.subject_type = b.subject_type
  · rw [if_pos h] at hab
    rw [if_pos h.symm] at hba
    simp only [decide_eq_true_eq] at hab hba
    exact ⟨h, le_antisymm hab hba⟩
  · have h' : ¬ b.subject_type = a.subject_type := fun e => h e.symm
    rw [if_neg h] at hab
    rw [if_neg h'] at hba
    simp only [decide_eq_true_eq] at hab hba
    omega

/-! ## Claim theorems -/

/-- Claim C2 counterexample: for two subjects that share `subject_type` and
`subject_ordinal` but have different codes, the stable sort in
`SubjectsFormComponent::view` keeps storage order, so the two orderings of
the same pair render differently — the claim fails without a
distinct-keys restriction. -/
theorem subjects_render_order_counterexample :
    List.Perm [Subject.mk 1 5 "AAA" 1, Subject.mk 2 5 "BBB" 1]
      [Subject.mk 2 5 "BBB" 1, Subject.mk 1 5 "AAA" 1] ∧
    viewSubjectOrder (some [Subject.mk 1 5 "AAA" 1, Subject.mk 2 5 "BBB" 1]) ≠
      viewSubjectOrder (some [Subject.mk 2 5 "BBB" 1, Subject.mk 1 5 "AAA" 1]) := by
  constructor
  · exact List.Perm.swap _ _ _
  · decide

/-- Claim C2 (amended): for every list of Subjects whose
(subject_type, subject_ordinal) keys are pairwise distinct, and every
permutation of that list, `SubjectsFormComponent::view` renders the subjects
in the same order, namely ascending by `subject_type` and, within equal
`subject_type`, ascending by `subject_ordinal`. -/
theorem subjects_render_order_stable :
    ∀ l l' : List Subject, l.Perm l' → (l.map subjectKey).Nodup →
      viewSubjectOrder (some l) = viewSubjectOrder (some l') ∧
      (viewSubjectOrder (some l)).Pairwise (fun a b =>
        a.subject_type < b.subject_type ∨
          (a.subject_type = b.subject_type ∧ a.subject_ordinal ≤ b.subject_ordinal)) := by
  intro l l' hperm hnd
  have hsorted₁ := stableSortLe_pairwise subjectLe subjectLe_trans subjectLe_total l
  have hsorted₂ := stableSortLe_pairwise subjectLe subjectLe_trans subjectLe_total l'
  have hp₁ : (stableSortLe subjectLe l).Perm l := stableSortLe_perm subjectLe l
  have hp₂ : (stableSortLe subjectLe l').Perm l' := stableSortLe_perm subjectLe l'
  have hbig : (stableSortLe subjectLe l).Perm (stableSortLe subjectLe l') :=
    hp₁.trans (hperm.trans hp₂.symm)
  have hnd₁ : ((stableSortLe subjectLe l).map subjectKey).Nodup :=
    ((hp₁.map subjectKey).nodup_iff).mpr hnd
  have heq := sorted_perm_eq_of_nodup_keys subjectLe subjectKey subjectLe_anti_key
    _ _ hbig hsorted₁ hsorted₂ hnd₁
  constructor
  · exact heq
  · refine List.Pairwise.imp ?_ hsorted₁
    intro a b hab
    simp only [subjectLe] at hab
    by_cases h : a.subject_type = b.subject_type
    · simp [h] at hab
      exact Or.inr ⟨h, hab⟩
    · simp [h] at hab
      exact Or.inl hab

/-- Claim C2 witness: a concrete two-element list with distinct keys, sorted
identically from both storage orders. -/
theorem subjects_render_order_stable_witness :
    viewSubjectOrder (some [Subject.mk 1 3 "X" 2, Subject.mk 2 3 "Y" 1]) =
      viewSubjectOrder (some [Subject.mk 2 3 "Y" 1, Subject.mk 1 3 "X" 2]) :=
  (subjects_render_order_stable _ _ (List.Perm.swap _ _ _) (by decide)).1

/-- The number of attempts made by `get_work` equals the number made by the
retried send of its single request. -/
theorem get_work_attempts (c : ThothClient) (oracle : Nat → Attempt Work) :
    (c.get_work oracle).2 = (sendWithRetry c.retryMaxRetries oracle).1 := by
  rcases h : sendWithRetry c.retryMaxRetries oracle with ⟨n, r⟩
  cases r <;> simp [ThothClient.get_work, h]

/-- Claim C1: `ThothClient::new` installs retry middleware with exactly 5
maximum retries and exponential backoff; every `get_work` request makes at
most 6 attempts; every retried attempt had a transient outcome; and a
response whose body parses but carries no data is returned immediately as
`EntityNotFound`, with no attempt after the one that delivered it. -/
theorem client_retry_policy :
    ∀ (ep : String) (oracle : Nat → Attempt Work),
      (ThothClient.new ep).retryMaxRetries = 5 ∧
      (ThothClient.new ep).retryBackoff = BackoffKind.exponential ∧
      ((ThothClient.new ep).get_work oracle).2 ≤ 5 + 1 ∧
      (∀ j, j + 1 < ((ThothClient.new ep).get_work oracle).2 →
        oracle j = Attempt.transient) ∧
      (∀ k, k ≤ 5 → (∀ j, j < k → oracle j = Attempt.transient) →
        oracle k = Attempt.final (ParsedBody.body none) →
        (ThothClient.new ep).get_work oracle =
          (Except.error ThothError.entityNotFound, k + 1)) := by
  intro ep oracle
  refine ⟨rfl, rfl, ?_, ?_, ?_⟩
  · rw [get_work_attempts]
    have h := runRetriesFrom_le oracle 5 0
    simpa [sendWithRetry, ThothClient.new, MAX_REQUEST_RETRIES] using h
  · intro j hj
    rw [get_work_attempts] at hj
    exact runRetriesFrom_transient_before oracle _ 0 j (Nat.zero_le j) hj
  · intro k hk htr hfk
    have hrun := runRetriesFrom_stops oracle k 5 0 hk
      (by intro j hj; simpa using htr j hj) _ (by simpa using hfk)
    have hsend : sendWithRetry (ThothClient.new ep).retryMaxRetries oracle =
        (k + 1, some (ParsedBody.body none)) := by
      simpa [sendWithRetry, ThothClient.new, MAX_REQUEST_RETRIES] using hrun
    simp [ThothClient.get_work, hsend, getWorkProcess]

/-- Claim C1 witness: two transient attempts followed by a parsed no-data
response stop at the third attempt with `EntityNotFound`. -/
theorem client_retry_policy_witness :
    (ThothClient.new "https://api.thoth.pub/graphql").get_work
        (fun i => if i < 2 then Attempt.transient else Attempt.final (ParsedBody.body none)) =
      (Except.error ThothError.entityNotFound, 3) :=
  (client_retry_policy "https://api.thoth.pub/graphql" _).2.2.2.2 2 (by omega)
    (fun j hj => if_pos hj) (by simp)

/-- Claim C4: for a request whose transient failures (if any) are followed by
a delivered parsed response, `get_work` returns `Ok` with the fetched work
exactly when the response carries a data payload, returns `EntityNotFound`
when it carries no data, and makes no attempt after the delivered response. -/
theorem get_work_not_found_terminal :
    ∀ (ep : String) (oracle : Nat → Attempt Work) (k : Nat) (d : Option Work),
      k ≤ 5 → (∀ j, j < k → oracle j = Attempt.transient) →
      oracle k = Attempt.final (ParsedBody.body d) →
      (ThothClient.new ep).get_work oracle = (getWorkProcess (ParsedBody.body d), k + 1) ∧
      (∀ w, getWorkProcess (ParsedBody.body d) = Except.ok w ↔ d = some w) ∧
      getWorkProcess (ParsedBody.body none) = Except.error ThothError.entityNotFound := by
  intro ep oracle k d hk htr hfk
  refine ⟨?_, ?_, rfl⟩
  · have hrun := runRetriesFrom_stops oracle k 5 0 hk
      (by intro j hj; simpa using htr j hj) _ (by simpa using hfk)
    have hsend : sendWithRetry (ThothClient.new ep).retryMaxRetries oracle =
        (k + 1, some (ParsedBody.body d)) := by
      simpa [sendWithRetry, ThothClient.new, MAX_REQUEST_RETRIES] using hrun
    simp [ThothClient.get_work, hsend]
  · intro w
    cases d <;> simp [getWorkProcess]

/-- Claim C4 witness: an immediate parsed no-data response yields
`EntityNotFound` after exactly one attempt. -/
theorem get_work_not_found_terminal_witness :
    (ThothClient.new "https://api.thoth.pub/test").get_work
        (fun _ => Attempt.final (ParsedBody.body none)) =
      (Except.error ThothError.entityNotFound, 1) :=
  (get_work_not_found_terminal "https://api.thoth.pub/test" _ 0 none (by omega)
    (fun j hj => absurd hj (Nat.not_lt_zero j)) rfl).1

/-- Claim C3 counterexample: `License::from_str` on a string that is not one
of the enumerated Creative Commons URLs succeeds with the `Undefined`
fallback instead of returning an error. -/
theorem license_from_str_counterexample :
    "not-a-license-url" ∉ ccLicenseUrls ∧
    License.from_str "not-a-license-url" = Except.ok License.Undefined := by
  exact ⟨by decide, rfl⟩

/-- Claim C3 (amended): `License::from_str` never fails — its error type is
uninhabited and every input yields `Ok`; an input that is not one of the
enumerated Creative Commons license URLs yields the explicit fallback
category `License::Undefined` rather than an error. -/
theorem license_from_str_total_fallback :
    ∀ s : String, (License.from_str s).isOk = true ∧
      (s ∉ ccLicenseUrls → License.from_str s = Except.ok License.Undefined) := by
  intro s
  constructor
  · rfl
  · intro hs
    simp only [ccLicenseUrls, List.append_assoc, List.mem_append, not_or] at hs
    obtain ⟨h1, h2, h3, h4, h5, h6, h7⟩ := hs
    simp only [License.from_str, if_neg h1, if_neg h2, if_neg h3, if_neg h4,
      if_neg h5, if_neg h6, if_neg h7]

/-- Claim C3 witness: a concrete unmapped URL maps to the fallback. -/
theorem license_from_str_total_fallback_witness :
    License.from_str "https://example.org/custom-license" = Except.ok License.Undefined :=
  (license_from_str_total_fallback "https://example.org/custom-license").2 (by decide)

/-- Claim C5: the sixteen export endpoint functions each produce a URL of
the form `{export-api}/specifications/{family::dialect}/work/{work_id}` with
the sixteen slugs, and for any fixed API root and work id the sixteen URLs
are pairwise distinct. -/
theorem export_endpoints_distinct :
    ∀ api work_id : String,
      displayWorkEndpoints api work_id =
        specSlugs.map (fun slug => specEndpoint api slug work_id) ∧
      (displayWorkEndpoints api work_id).Nodup := by
  intro api w
  have hmap : displayWorkEndpoints api w =
      specSlugs.map (fun slug => specEndpoint api slug w) := by
    simp only [displayWorkEndpoints, specSlugs, List.map_cons, List.map_nil,
      marc21_thoth_endpoint, marc21markup_thoth_endpoint, marc21xml_thoth_endpoint,
      onix_thoth_endpoint, onix_projectmuse_endpoint, onix_oapen_endpoint,
      onix_jstor_endpoint, onix_google_books_endpoint, onix_overdrive_endpoint,
      onix_ebsco_host_endpoint, onix_proquest_ebrary_endpoint, csv_endpoint,
      json_endpoint, kbart_endpoint, bibtex_endpoint, doideposit_endpoint,
      List.cons.injEq, and_true]
    refine ⟨?_, ?_, ?_, ?_, ?_, ?_, ?_, ?_, ?_, ?_, ?_, ?_, ?_, ?_, ?_, ?_⟩ <;>
      · apply endpoint_form
        decide
  refine ⟨hmap, ?_⟩
  rw [hmap]
  exact List.Nodup.map (specEndpoint_slug_injective api w) (by decide)

/-- Claim C6 counterexample: when the language-codes fetch ends in the
`Failed` state, the handler substitutes the empty list and sends no
notification — the error is silently swallowed. -/
theorem language_codes_failure_counterexample :
    setLanguageCodesFetchState (FetchState.failed "connection reset") = ([], []) := rfl

/-- Claim C6 (amended): the create-language push and the series fetch surface
their failures (a danger notification, resp. rendered error text), but the
language-codes fetch on failure silently replaces the options list with the
empty list and emits no notification. -/
theorem component_error_surfacing :
    ∀ (err : String) (props : Option (List Language)),
      (setLanguagePushState props (FetchState.failed err)).2 =
        [{ message := err, status := NotificationStatus.danger }] ∧
      (setLanguagePushState props (FetchState.fetched none)).2 =
        [{ message := "Failed to save", status := NotificationStatus.danger }] ∧
      seriesView (FetchState.failed err) = SeriesRendered.errorText err ∧
      setLanguageCodesFetchState (FetchState.failed err) = ([], []) := by
  intro err props
  exact ⟨rfl, rfl, rfl, rfl⟩

/-- Claim C7 counterexample: the input string "-5" parses as the `i32` value
-5, so a single `ChangeOrdinal` message stores a negative ordinal. -/
theorem change_ordinal_counterexample :
    (changeOrdinal "-5" Subject.default).subject_ordinal = -5 ∧
    (changeOrdinal "-5" Subject.default).subject_ordinal < 0 := by
  exact ⟨by decide, by decide⟩

/-- Claim C7 (amended): after any sequence of `ChangeOrdinal` messages in
which every input that parses as an `i32` parses to a non-negative value,
the stored `new_subject.subject_ordinal` stays non-negative: non-numeric
input is replaced by 0 and a parsed value replaces the field.  (As the
counterexample shows, a negative numeral does make the ordinal negative, so
the restriction on numeric inputs is needed.) -/
theorem change_ordinal_nonneg :
    ∀ (msgs : List String) (st : Subject),
      0 ≤ st.subject_ordinal →
      (∀ s ∈ msgs, ∀ v : Int, parseI32 s = some v → 0 ≤ v) →
      0 ≤ (msgs.foldl (fun acc s => changeOrdinal s acc) st).subject_ordinal := by
  intro msgs
  induction msgs with
  | nil =>
    intro st h _
    simpa using h
  | cons m rest ih =>
    intro st h hall
    simp only [List.foldl_cons]
    apply ih
    · simp only [changeOrdinal]
      cases hp : parseI32 m with
      | none => simp
      | some v => simpa using hall m (List.mem_cons_self m rest) v hp
    · intro s hs v hv
      exact hall s (List.mem_cons_of_mem m hs) v hv

/-- Claim C7 witness: a numeric then a non-numeric input starting from the
default subject keep the ordinal non-negative. -/
theorem change_ordinal_nonneg_witness :
    0 ≤ (List.foldl (fun acc s => changeOrdinal s acc)
      Subject.default ["7", "abc"]).subject_ordinal :=
  change_ordinal_nonneg ["7", "abc"] Subject.default (by decide)
    (by
      intro s hs v hv
      simp only [List.mem_cons, List.not_mem_nil, or_false] at hs
      rcases hs with rfl | rfl
      · have h7 : parseI32 "7" = some 7 := by decide
        rw [h7] at hv
        injection hv with h
        omega
      · have habc : parseI32 "abc" = none := by decide
        rw [habc] at hv
        cases hv)

/-- Claim C8 counterexample: `ThothClient` also exposes `get_work_count`, a
public read-only query whose shape is none of the three shapes the spec
names, so the interface does not expose *exactly* those three shapes. -/
theorem client_interface_counterexample :
    ClientOp.getWorkCountOp ∈ clientOps ∧
    opShape ClientOp.getWorkCountOp ≠ QueryShape.fetchOneByIdentity ∧
    opShape ClientOp.getWorkCountOp ≠ QueryShape.fetchPageByPublishers ∧
    opShape ClientOp.getWorkCountOp ≠ QueryShape.fetchLastUpdated := by
  refine ⟨?_, ?_, ?_, ?_⟩ <;> decide

/-- Claim C8 (amended): `ThothClient` provides the three read-only query
shapes the spec names — fetch one aggregate by identity (`get_work`), fetch
a page filtered by publisher ownership with limit and offset (`get_works`),
and fetch a last-updated timestamp (`get_work_last_updated`,
`get_works_last_updated`) — and additionally a work-count query
(`get_work_count`); these five are all its public query methods. -/
theorem client_interface_shapes :
    opShape ClientOp.getWorkOp = QueryShape.fetchOneByIdentity ∧
    opShape ClientOp.getWorksOp = QueryShape.fetchPageByPublishers ∧
    opShape ClientOp.getWorkLastUpdatedOp = QueryShape.fetchLastUpdated ∧
    opShape ClientOp.getWorksLastUpdatedOp = QueryShape.fetchLastUpdated ∧
    opShape ClientOp.getWorkCountOp = QueryShape.fetchCount ∧
    clientOps = [ClientOp.getWorkOp, ClientOp.getWorksOp, ClientOp.getWorkCountOp,
      ClientOp.getWorkLastUpdatedOp, ClientOp.getWorksLastUpdatedOp] :=
  ⟨rfl, rfl, rfl, rfl, rfl, rfl⟩

/-- Claim C9: deleting a subject (resp. language) emits the previous props
list with exactly the entries bearing the deleted id removed: the emitted
list is a sublist of the previous one (entries unmodified, in their original
relative order), no entry with the deleted id remains, and every entry with
a different id keeps its multiplicity. -/
theorem delete_removes_exactly_matching :
    ∀ (subjects : List Subject) (languages : List Language) (x y : Uuid),
      (subjectDeleteEmit (some subjects) x).Sublist subjects ∧
      (∀ s ∈ subjectDeleteEmit (some subjects) x, s.subject_id ≠ x) ∧
      (∀ s : Subject, s.subject_id ≠ x →
        (subjectDeleteEmit (some subjects) x).count s = subjects.count s) ∧
      (languageDeleteEmit (some languages) y).Sublist languages ∧
      (∀ l ∈ languageDeleteEmit (some languages) y, l.language_id ≠ y) ∧
      (∀ l : Language, l.language_id ≠ y →
        (languageDeleteEmit (some languages) y).count l = languages.count l) := by
  intro subjects languages x y
  refine ⟨List.filter_sublist _, ?_, ?_, List.filter_sublist _, ?_, ?_⟩
  · intro s hs
    have h := List.of_mem_filter hs
    simpa using h
  · intro s hsx
    apply List.count_filter
    simpa using hsx
  · intro l hl
    have h := List.of_mem_filter hl
    simpa using h
  · intro l hly
    apply List.count_filter
    simpa using hly

/-- Claim C9 witness: deleting id 1 from a concrete two-subject list keeps
the multiplicity of the other entry. -/
theorem delete_removes_exactly_matching_witness :
    (Subject.mk 2 0 "BB" 2).subject_id ≠ 1 ∧
    (subjectDeleteEmit (some [Subject.mk 1 0 "AA" 1, Subject.mk 2 0 "BB" 2]) 1).count
        (Subject.mk 2 0 "BB" 2) =
      ([Subject.mk 1 0 "AA" 1, Subject.mk 2 0 "BB" 2]).count (Subject.mk 2 0 "BB" 2) :=
  ⟨by decide,
   (delete_removes_exactly_matching
      [Subject.mk 1 0 "AA" 1, Subject.mk 2 0 "BB" 2] [] 1 0).2.2.1
     (Subject.mk 2 0 "BB" 2) (by decide)⟩

/-- Claim C10: `get_works_last_updated` returns the first returned work's
`updated_at_with_relations`, and `EntityNotFound` both when the returned
works list is empty and when the response carries no data, whereas
`get_works` returns `Ok` with the empty vector for an empty page that
carries a data payload. -/
theorem works_last_updated_empty_page_edge :
    ∀ (rows : List WorkUpdatedRow) (r : WorkUpdatedRow),
      getWorksLastUpdatedProcess none = Except.error ThothError.entityNotFound ∧
      getWorksLastUpdatedProcess (some []) = Except.error ThothError.entityNotFound ∧
      getWorksLastUpdatedProcess (some (r :: rows)) =
        Except.ok r.updated_at_with_relations ∧
      getWorksProcess (some []) = Except.ok [] ∧
      getWorksProcess none = Except.error ThothError.entityNotFound := by
  intro rows r
  exact ⟨rfl, rfl, rfl, rfl, rfl⟩

end Thoth
